import Mathlib

/-!
Verification of the pgxm build pipeline (src/pgxm/build.py and src/pgxm/cli.py).

The Python code is shallowly embedded: pure helpers become Lean functions,
the Docker engine (the external `docker_helpers` module, which is not part of
the core sources) is modelled as uninterpreted world data describing the
outcome of each engine call, and every engine interaction is recorded in a
trace so that ordering and teardown properties can be stated.  Fallible
Python code returns `Except BuildErr`; raw Python exceptions (IndexError,
AttributeError) are distinguished from the builder's own exception classes.
-/

/-! ## Python string primitives used by build.py

All string operations are implemented by structural recursion on the
character list, so that every definition evaluates inside the kernel. -/

/-- The single and double quote, the characters of Python `strip("'\"")`. -/
def quoteChars : List Char := [Char.ofNat 39, Char.ofNat 34]

/-- Drop leading and trailing characters satisfying a predicate. -/
def dropAround (p : Char → Bool) (l : List Char) : List Char :=
  ((l.dropWhile p).reverse.dropWhile p).reverse

/-- Python `s.strip()` (whitespace). -/
def pyStripWs (s : String) : String :=
  String.mk (dropAround (fun c => c.isWhitespace) s.toList)

/-- Python `s.strip("'\"")`: drop leading and trailing quote characters. -/
def stripQuoteChars (s : String) : String :=
  String.mk (dropAround (fun c => quoteChars.contains c) s.toList)

/-- Split a character list at every separator position, keeping empty groups
(the behaviour of Python `split` with an explicit separator). -/
def splitCharsBy (p : Char → Bool) : List Char → List (List Char)
  | [] => [[]]
  | c :: cs =>
    match splitCharsBy p cs, p c with
    | r, true => [] :: r
    | [], false => [[c]]
    | g :: gs, false => (c :: g) :: gs

/-- Python `s.split(sep)` for a one-character separator. -/
def pySplitChar (sep : Char) (s : String) : List String :=
  (splitCharsBy (fun c => c == sep) s.toList).map String.mk

/-- Python `s.split()` (no separator): whitespace-delimited tokens, empties dropped. -/
def splitWs (s : String) : List String :=
  ((splitCharsBy (fun c => c.isWhitespace) s.toList).map String.mk).filter (fun t => t ≠ "")

/-- First whitespace-delimited token of a string; `none` models the
`IndexError` of Python `s.split()[0]` on a token-free string. -/
def firstWhitespaceToken (s : String) : Option String :=
  (splitWs s).head?

/-- Python `s.split("/")[-1]`: the last slash-separated segment (`split`
with an explicit separator keeps empty segments, and the list is never
empty, so indexing cannot fail). -/
def lastSlashSegment (s : String) : String :=
  (pySplitChar (Char.ofNat 47) s).getLastD ""

/-- Python `pathlib.Path(s).name`: last nonempty path component. -/
def pathName (s : String) : String :=
  ((pySplitChar (Char.ofNat 47) s).filter (fun t => t ≠ "")).getLastD ""

/-- Python `s.split("=", 1)`: split at the first `=` occurrence. -/
def splitEqOnce (s : String) : String × String :=
  match s.toList.span (fun c => c ≠ Char.ofNat 61) with
  | (pre, []) => (String.mk pre, "")
  | (pre, _ :: post) => (String.mk pre, String.mk post)

/-- Whether one character list is a prefix of another. -/
def listIsPre : List Char → List Char → Bool
  | [], _ => true
  | _ :: _, [] => false
  | p :: ps, c :: cs => p == c && listIsPre ps cs

/-- Python `s.startswith(pre)`. -/
def pyStartsWith (s pre : String) : Bool :=
  listIsPre pre.toList s.toList

/-- Python `s.endswith(suf)`. -/
def pyEndsWith (s suf : String) : Bool :=
  listIsPre suf.toList.reverse s.toList.reverse

/-- Python `ch in s` for a single character. -/
def strContainsChar (s : String) (c : Char) : Bool :=
  s.toList.contains c

/-- Boolean membership test on a list of strings (Python `x in xs`). -/
def strListContains : List String → String → Bool
  | [], _ => false
  | x :: xs, a => x == a || strListContains xs a

/-! ## Build options (the kwargs of PgxmBuilder / the CLI build command)

The two comma-separated options are modelled as `Option (Option String)`:
the outer layer is key presence in the kwargs dict, the inner layer is
Python `None` versus a string.  The CLI always passes these keys, with
value `None` whenever the flag is omitted.  The remaining optional fields
are only ever read through Python truthiness (where `None` and an absent
key behave identically), so a single `Option String` layer suffices;
`pg_version` is read via `get("pg_version", "15")` and the CLI always
supplies a string for it. -/

structure Options where
  path : Option String := none
  output_path : Option String := none
  version : Option String := none
  name : Option String := none
  extension_name : Option String := none
  extension_dependencies : Option (Option String) := none
  preload_libraries : Option (Option String) := none
  platform : Option String := none
  dockerfile : Option String := none
  install_command : Option String := none
  test : Bool := false
  pg_version : Option String := none

/-- Python `options.get(key, default)` for a key modelled with explicit
presence: a present key returns its (possibly `None`) value, an absent key
returns the default. -/
def pyGet2 (v : Option (Option String)) (dflt : Option String) : Option String :=
  match v with
  | some x => x
  | none => dflt

/-- Python truthiness of an optional string: `None` and `""` are falsy. -/
def truthy : Option String → Bool
  | none => false
  | some s => s != ""

/-- Python `a or b` on optional strings. -/
def pyOr (a b : Option String) : Option String :=
  if truthy a then a else b

/-- The kwargs assembled by the CLI `build` command: every key is passed
explicitly, so the comma-separated options arrive present-with-`None`
whenever their flag was omitted; `path` and `pg_version` have CLI string
defaults. -/
def cliKwargs (path : String) (output_path version name extension_name : Option String)
    (extension_dependencies preload_libraries : Option String)
    (platform dockerfile install_command : Option String)
    (test : Bool) (pg_version : String) : Options :=
  { path := some path
    output_path := output_path
    version := version
    name := name
    extension_name := extension_name
    extension_dependencies := some extension_dependencies
    preload_libraries := some preload_libraries
    platform := platform
    dockerfile := dockerfile
    install_command := install_command
    test := test
    pg_version := some pg_version }

/-! ## Constants from build.py -/

def DEFAULT_PG_VERSION : String := "15"
def DEFAULT_OUTPUT_DIR_NAME : String := ".pgxm"
def MANIFEST_FILENAME : String := "manifest.json"

/-! ## Error taxonomy

`configError`, `builderError` and `dockerError` embed the exception classes
`PgxmBuilderConfigError`, `PgxmBuilderError` and `PgxmBuilderDockerError`
(the first and last are subclasses of the second; the constructor records
the most specific class of the raised object).  `attributeError` and
`indexError` embed raw Python exceptions escaping from the builder's own
code. -/

inductive BuildErr where
  | configError (msg : String)
  | builderError (msg : String)
  | dockerError (msg : String)
  | attributeError (msg : String)
  | indexError (msg : String)
  deriving DecidableEq, Repr

/-- The exception class of an error, the only thing a caller can
`except ...:` on. -/
inductive ErrKind where
  | config
  | builder
  | docker
  | attribute
  | index
  deriving DecidableEq, Repr

def errKind : BuildErr → ErrKind
  | .configError _ => .config
  | .builderError _ => .builder
  | .dockerError _ => .docker
  | .attributeError _ => .attribute
  | .indexError _ => .index

def isConfigError : BuildErr → Bool
  | .configError _ => true
  | _ => false

/-- Error class of a computation's outcome (`none` for success). -/
def resultErrKind {α : Type} : Except BuildErr α → Option ErrKind
  | .ok _ => none
  | .error e => some (errKind e)

/-- The catch-all at the end of `build()`: `PgxmBuilderError` subclasses
are re-raised unchanged, any other exception is wrapped into
`PgxmBuilderError(f"Build failed unexpectedly: {e}")`. -/
def wrapUnexpected : BuildErr → BuildErr
  | .attributeError m => .builderError ("Build failed unexpectedly: " ++ m)
  | .indexError m => .builderError ("Build failed unexpectedly: " ++ m)
  | e => e

/-! ## Control file parsing (_read_control_file_data) -/

/-- One line of the control file: skipped when blank after stripping, a
`#` comment, or without `=`; otherwise split at the first `=`, the key
stripped, the value stripped and then stripped of surrounding quotes. -/
def parseControlLine (line : String) : Option (String × String) :=
  let l := pyStripWs line
  if l ≠ "" && !(pyStartsWith l "#") && strContainsChar l (Char.ofNat 61) then
    let kv := splitEqOnce l
    some (pyStripWs kv.1, stripQuoteChars (pyStripWs kv.2))
  else
    none

/-- `control_data` accumulated line by line (a Python dict; duplicate keys
keep the last assignment, which `dictGet` reproduces). -/
def readControlFileData (lines : List String) : List (String × String) :=
  lines.filterMap parseControlLine

/-- Python `dict.get`: the last binding of the key, if any. -/
def dictGet (d : List (String × String)) (k : String) : Option String :=
  ((d.filter (fun p => p.1 == k)).getLast?).map Prod.snd

/-! ## The host filesystem, as seen by _validate -/

structure FS where
  /-- `Path(p).resolve()`. -/
  resolve : String → String
  /-- `Path(p).exists()`. -/
  pathExists : String → Bool
  /-- `Path(p).is_dir()`. -/
  isDir : String → Bool
  /-- Names of the regular files in a directory, in `iterdir` order. -/
  dirFiles : String → List String
  /-- Lines of a text file. -/
  fileLines : String → List String

/-- `Path.suffix == ".control"`: the name ends in `.control` and the stem
is nonempty (a bare `.control` is a hidden file with empty suffix). -/
def controlSuffixed (nm : String) : Bool :=
  pyEndsWith nm ".control" && nm != ".control"

/-- `_find_control_file`: scan `<ext>/extension` then `<ext>` for files
with the control suffix; the last one found wins; `none` models the
`FileNotFoundError`. -/
def findControlFile (fs : FS) (extPath : String) : Option String :=
  let sub := extPath ++ "/extension"
  let cands :=
    (if fs.isDir sub then (fs.dirFiles sub).map (fun nm => sub ++ "/" ++ nm) else []) ++
    (if fs.isDir extPath then (fs.dirFiles extPath).map (fun nm => extPath ++ "/" ++ nm) else [])
  (cands.filter (fun p => controlSuffixed (pathName p))).getLast?

/-! ## Configuration resolution (_validate and its five steps) -/

structure BuildConfig where
  extensionPath : String
  outputDir : String
  controlData : List (String × String)
  finalName : String
  finalVersion : String
  dockerfilePath : String
  installCommand : String
  deriving DecidableEq, Repr

/-- The name chain of `_determine_name_and_version`:
`override or module_pathname.split("/")[-1] or comment.split()[0] or "unknown-extension"`.
The indexing `split()[0]` raises `IndexError` when the comment value has
no whitespace-delimited token, which the final fallback never catches
(`split()` without arguments cannot produce an empty first token, so the
trailing `or "unknown-extension"` is unreachable). -/
def finalNameOf (overrideName : Option String) (ctrl : List (String × String)) :
    Except BuildErr String :=
  if truthy overrideName then .ok (overrideName.getD "")
  else if lastSlashSegment ((dictGet ctrl "module_pathname").getD "") ≠ "" then
    .ok (lastSlashSegment ((dictGet ctrl "module_pathname").getD ""))
  else
    match firstWhitespaceToken ((dictGet ctrl "comment").getD "unknown-extension") with
    | none => .error (.indexError "list index out of range")
    | some tok => if tok ≠ "" then .ok tok else .ok "unknown-extension"

/-- The version chain: `override or control_data.get("default_version") or "0.0.1"`. -/
def finalVersionOf (overrideVersion : Option String) (ctrl : List (String × String)) : String :=
  if truthy overrideVersion then overrideVersion.getD ""
  else
    match dictGet ctrl "default_version" with
    | some v => if v ≠ "" then v else "0.0.1"
    | none => "0.0.1"

/-- `_locate_dockerfile`: an existing override path, else `<ext>/Dockerfile`,
else a configuration error. -/
def locateDockerfile (opts : Options) (fs : FS) (extPath : String) :
    Except BuildErr String :=
  if truthy opts.dockerfile && fs.pathExists (opts.dockerfile.getD "") then
    .ok (opts.dockerfile.getD "")
  else if fs.pathExists (extPath ++ "/Dockerfile") then
    .ok (extPath ++ "/Dockerfile")
  else
    .error (.configError "No Dockerfile found. pgxm currently only supports Docker-based builds.")

/-- `_determine_install_command`: override, else `make install` when a
Makefile sits at the source root, else a no-op echo placeholder. -/
def determineInstallCommand (opts : Options) (fs : FS) (extPath : String) : String :=
  if truthy opts.install_command then opts.install_command.getD ""
  else if fs.pathExists (extPath ++ "/Makefile") then "make install"
  else "echo \x27No standard install command found. Please specify with -i.\x27"

/-- `Path(path).resolve()` as performed by `_resolve_paths`. -/
def resolveExtPath (opts : Options) (fs : FS) : String :=
  fs.resolve (opts.path.getD ".")

/-- The output directory: the resolved override or `<source>/.pgxm`. -/
def resolveOutDir (opts : Options) (fs : FS) (extPath : String) : String :=
  if truthy opts.output_path then fs.resolve (opts.output_path.getD "")
  else extPath ++ "/" ++ DEFAULT_OUTPUT_DIR_NAME

/-- `_validate`: paths, control file, name/version, Dockerfile, install
command, in that order.  Directory creation for the output directory is
modelled as always succeeding. -/
def validate (opts : Options) (fs : FS) : Except BuildErr BuildConfig :=
  if !(fs.pathExists (resolveExtPath opts fs)) then
    .error (.configError ("Extension path does not exist: " ++ resolveExtPath opts fs))
  else
    match findControlFile fs (resolveExtPath opts fs) with
    | none =>
      .error (.configError ("No .control file found in " ++ resolveExtPath opts fs ++ " or " ++
        resolveExtPath opts fs ++ "/extension"))
    | some ctrlPath =>
      if (readControlFileData (fs.fileLines ctrlPath)).isEmpty then
        .error (.builderError "Control file must be read before determining name/version.")
      else
        match finalNameOf (pyOr opts.extension_name opts.name)
            (readControlFileData (fs.fileLines ctrlPath)) with
        | .error e => .error e
        | .ok nm =>
          match locateDockerfile opts fs (resolveExtPath opts fs) with
          | .error e => .error e
          | .ok df =>
            .ok { extensionPath := resolveExtPath opts fs
                  outputDir := resolveOutDir opts fs (resolveExtPath opts fs)
                  controlData := readControlFileData (fs.fileLines ctrlPath)
                  finalName := nm
                  finalVersion := finalVersionOf opts.version
                    (readControlFileData (fs.fileLines ctrlPath))
                  dockerfilePath := df
                  installCommand := determineInstallCommand opts fs (resolveExtPath opts fs) }

/-! ## The container engine, modelled as uninterpreted world data

`docker_helpers` is an external module (not part of the core sources); each
helper's outcome is supplied by the world.  Every engine interaction is
recorded as a `Call` in a trace, in program order. -/

inductive Call where
  /-- `docker_helpers.get_docker_client()`. -/
  | connect
  /-- `docker_helpers.build_image(...)`. -/
  | buildImage
  /-- `docker_helpers.run_temporary_container(...)`. -/
  | runContainer
  /-- `docker_helpers.locate_makefile(...)`. -/
  | locateMakefile
  /-- `docker_helpers.makefile_contains_target(..., t)`. -/
  | checkTarget (t : String)
  /-- `docker_helpers.exec_in_container(...)` with the given argv and environment. -/
  | execCmd (argv : List String) (env : List String)
  /-- `docker_helpers.start_postgres(...)`. -/
  | startPostgres
  /-- `docker_helpers.get_changed_files(...)` (docker diff). -/
  | diffFiles
  /-- `docker_helpers.copy_files_from_container(...)` for the given container paths. -/
  | copyFiles (paths : List String)
  /-- `docker_helpers.find_licenses(...)`. -/
  | findLicenseFiles
  /-- `client.containers.get(container_id)` during cleanup. -/
  | getContainer
  /-- `container.stop()` during cleanup. -/
  | stopContainer
  /-- `container.remove()` during cleanup. -/
  | removeContainer
  /-- `client.images.remove(image_id, force=True)` during cleanup (forced removal). -/
  | removeImage
  deriving DecidableEq, Repr

/-- Outcomes of the engine calls made by the build body.  A `false` success
flag means the corresponding helper raised. -/
structure BodyWorld where
  connectOk : Bool := true
  buildImageOk : Bool := true
  runContainerOk : Bool := true
  /-- Result of `locate_makefile` (`none` = not found). -/
  makefilePath : Option String := none
  /-- Result of `makefile_contains_target` per target name. -/
  hasTarget : String → Bool := fun _ => false
  /-- Exit code of `exec_in_container` per argv. -/
  execExit : List String → Nat := fun _ => 0
  diffOk : Bool := true
  /-- The changed-path set reported by docker diff, in iteration order. -/
  changedFiles : List String := []
  copyOk : Bool := true
  /-- Result of `copy_files_from_container`: (host path, container-relative path)
  pairs for a requested path list. -/
  copyOut : List String → List (String × String) := fun _ => []
  /-- Whether the whole license phase runs without raising. -/
  licensePhaseOk : Bool := true
  /-- Result of `find_licenses`. -/
  licensePaths : List String := []
  /-- Result of `copy_licenses`: (container path, intended archive path) pairs. -/
  licenseInstr : List (String × String) := []

/-- Outcomes of the engine calls made by `_cleanup`. -/
structure CleanupWorld where
  getContainerOk : Bool := true
  /-- `container.status == "running"` at cleanup time. -/
  containerRunning : Bool := true
  stopOk : Bool := true
  removeContainerOk : Bool := true
  removeImageOk : Bool := true

structure World where
  body : BodyWorld
  cleanup : CleanupWorld
  /-- Host-file existence at packaging time (`host_path.exists()`). -/
  hostExists : String → Bool
  /-- The temporary collection directory created for this build. -/
  tempDir : String

/-! ## Test execution (_run_tests) -/

/-- `_run_tests`: skipped without the test flag; `installcheck` is probed
before `check`; `make install` must succeed before `installcheck` runs;
both test targets run with `PGUSER=postgres` after starting Postgres.  The
whole body sits in a `try` whose handler re-raises any exception (the
builder's own `PgxmBuilderDockerError` included) as
`PgxmBuilderDockerError(f"Error during test execution: {e}")`. -/
def runTests (opts : Options) (w : BodyWorld) : Except BuildErr Unit × List Call :=
  if !opts.test then (.ok (), [])
  else
    match w.makefilePath with
    | none => (.ok (), [Call.locateMakefile])
    | some _mf =>
      let tr1 := [Call.locateMakefile, Call.checkTarget "installcheck"]
      if w.hasTarget "installcheck" then
        let tr2 := tr1 ++ [Call.execCmd ["make", "install"] []]
        if w.execExit ["make", "install"] ≠ 0 then
          (.error (.dockerError
            "Error during test execution: \x27make install\x27 failed before \x27installcheck\x27."),
           tr2)
        else
          let tr3 := tr2 ++ [Call.startPostgres,
            Call.execCmd ["make", "installcheck"] ["PGUSER=postgres"]]
          if w.execExit ["make", "installcheck"] = 0 then (.ok (), tr3)
          else
            (.error (.dockerError "Error during test execution: Tests (installcheck) failed."), tr3)
      else
        let tr2 := tr1 ++ [Call.checkTarget "check"]
        if w.hasTarget "check" then
          let tr3 := tr2 ++ [Call.startPostgres,
            Call.execCmd ["make", "check"] ["PGUSER=postgres"]]
          if w.execExit ["make", "check"] = 0 then (.ok (), tr3)
          else (.error (.dockerError "Error during test execution: Tests (check) failed."), tr3)
        else (.ok (), tr2)

/-! ## Artifact collection (_discover_and_collect_files) -/

/-- Entries produced by copying the docker-diff change set (empty change
set: the copy step is skipped with a warning). -/
def mainEntriesOf (w : BodyWorld) : List (String × String) :=
  if w.changedFiles.isEmpty then [] else w.copyOut w.changedFiles

/-- Entries produced by the license phase: the build.py loop assigns every
copied license file the archive path `licenses/<host file base name>`,
discarding the instruction's own archive path.  A raising license phase
contributes nothing (the handler only logs). -/
def licenseEntriesOf (w : BodyWorld) : List (String × String) :=
  if !w.licensePhaseOk then []
  else if w.licensePaths.isEmpty then []
  else
    (w.copyOut (w.licenseInstr.map Prod.fst)).map
      (fun p => (p.1, "licenses/" ++ pathName p.1))

/-- Engine calls of the license phase. -/
def licenseCalls (w : BodyWorld) : List Call :=
  [Call.findLicenseFiles] ++
  (if w.licensePhaseOk && !w.licensePaths.isEmpty then
    [Call.copyFiles (w.licenseInstr.map Prod.fst)]
  else [])

/-- `_discover_and_collect_files`: diff (fatal on error), copy of the
change set (fatal on error, skipped when empty), then the non-fatal
license phase. -/
def collectFiles (w : BodyWorld) : Except BuildErr (List (String × String)) × List Call :=
  if !w.diffOk then
    (.error (.dockerError "Error discovering changed files"), [Call.diffFiles])
  else if w.changedFiles.isEmpty then
    (.ok (mainEntriesOf w ++ licenseEntriesOf w), [Call.diffFiles] ++ licenseCalls w)
  else if !w.copyOk then
    (.error (.dockerError "Error copying changed files"),
     [Call.diffFiles, Call.copyFiles w.changedFiles])
  else
    (.ok (mainEntriesOf w ++ licenseEntriesOf w),
     [Call.diffFiles, Call.copyFiles w.changedFiles] ++ licenseCalls w)

/-! ## Manifest creation (_create_manifest) -/

structure Manifest where
  name : String
  version : String
  pg_version : String
  description : String
  dependencies : List String
  preload_libraries : List String
  deriving DecidableEq, Repr

/-- Python `[d.strip() for d in v.split(",") if d.strip()]`; calling
`.split` on `None` raises `AttributeError`. -/
def pySplitCsv (v : Option String) : Except BuildErr (List String) :=
  match v with
  | none => .error (.attributeError "\x27NoneType\x27 object has no attribute \x27split\x27")
  | some s => .ok (((pySplitChar (Char.ofNat 44) s).map pyStripWs).filter (fun d => d ≠ ""))

/-- `_create_manifest`: the manifest record plus the temporary file path it
is written to (`<temp dir>/manifest.json`; the file write is modelled as
succeeding).  `options.get("extension_dependencies", "")` returns `None`
when the key is present with value `None`, which makes the subsequent
`.split(",")` raise. -/
def createManifest (opts : Options) (cfg : BuildConfig) (tempDir : String) :
    Except BuildErr (Manifest × String) := do
  let pg := opts.pg_version.getD DEFAULT_PG_VERSION
  let deps ← pySplitCsv (pyGet2 opts.extension_dependencies (some ""))
  let libs ← pySplitCsv (pyGet2 opts.preload_libraries (some ""))
  .ok ({ name := cfg.finalName
         version := cfg.finalVersion
         pg_version := pg
         description := (dictGet cfg.controlData "comment").getD
           ("Built by pgxm from " ++ pathName cfg.extensionPath)
         dependencies := deps
         preload_libraries := libs },
       tempDir ++ "/" ++ MANIFEST_FILENAME)

/-! ## Packaging (_package_files) -/

/-- The deterministic archive file name. -/
def packageFilename (name version pg : String) : String :=
  name ++ "-" ++ version ++ "-pg" ++ pg ++ ".tar.gz"

/-- `archive_path.replace("\\", "/")`. -/
def normalizeArchivePath (s : String) : String :=
  String.mk (s.toList.map (fun c => if c == Char.ofNat 92 then Char.ofNat 47 else c))

/-- The tar loop of `_package_files`: an entry is added when its host path
exists and its normalized archive path was not added before; a missing
host file is skipped with a warning, a duplicate archive path with a debug
note. -/
def addArchiveEntries (hostExists : String → Bool) :
    List (String × String) → List String → List (String × String)
  | [], _ => []
  | p :: rest, added =>
    if hostExists p.1 && !(strListContains added (normalizeArchivePath p.2)) then
      (p.1, normalizeArchivePath p.2) ::
        addArchiveEntries hostExists rest (normalizeArchivePath p.2 :: added)
    else
      addArchiveEntries hostExists rest added

/-- The `added_paths` set after the loop has processed a list of entries. -/
def addedAfter (hostExists : String → Bool) :
    List (String × String) → List String → List String
  | [], added => added
  | p :: rest, added =>
    if hostExists p.1 && !(strListContains added (normalizeArchivePath p.2)) then
      addedAfter hostExists rest (normalizeArchivePath p.2 :: added)
    else
      addedAfter hostExists rest added

/-- `_package_files`: the archive path in the output directory and the
entries actually added to the tar, in order.  The manifest is appended to
the collected list under the fixed top-level name before the loop runs. -/
def packageFiles (hostExists : String → Bool) (opts : Options) (cfg : BuildConfig)
    (collected : List (String × String)) (manifestPath : String) :
    String × List (String × String) :=
  let pg := opts.pg_version.getD DEFAULT_PG_VERSION
  let fname := packageFilename cfg.finalName cfg.finalVersion pg
  (cfg.outputDir ++ "/" ++ fname,
   addArchiveEntries hostExists (collected ++ [(manifestPath, MANIFEST_FILENAME)]) [])

/-! ## Lifecycle guard (_cleanup) and the full build (build) -/

/-- Engine calls issued by `_cleanup`.  Nothing happens without a client
handle.  The container block is one `try`: a failing `containers.get`
skips stop and remove, a failing `stop` skips remove; the image block is a
separate `try`, so container-cleanup failures never prevent the forced
image removal; both handlers only log. -/
def cleanupCalls (clientObtained containerCreated imageCreated : Bool)
    (c : CleanupWorld) : List Call :=
  if !clientObtained then []
  else
    (if containerCreated then
      [Call.getContainer] ++
      (if !c.getContainerOk then []
       else if c.containerRunning then
         [Call.stopContainer] ++ (if c.stopOk then [Call.removeContainer] else [])
       else [Call.removeContainer])
    else []) ++
    (if imageCreated then [Call.removeImage] else [])

/-- Result of one `build()` invocation: the outcome visible to the caller,
the engine-call trace, which session resources were created
(`docker_client`, `image_id`, `container_id` set), and the produced
archive (path and added entries), if packaging was reached. -/
structure BuildOutcome where
  result : Except BuildErr Unit
  trace : List Call
  clientObtained : Bool
  imageCreated : Bool
  containerCreated : Bool
  archive : Option (String × List (String × String))
  deriving Repr

/-- The `try` body of `build()`: validate, connect, image build, container
run, tests, install, collect, manifest, package.  Each failing step stops
forward progress with its typed error. -/
def buildBody (opts : Options) (fs : FS) (bw : BodyWorld)
    (hostExists : String → Bool) (tempDir : String) : BuildOutcome :=
  match validate opts fs with
  | .error e => ⟨.error e, [], false, false, false, none⟩
  | .ok cfg =>
    if !bw.connectOk then
      ⟨.error (.dockerError "Failed to connect to Docker"), [Call.connect],
       false, false, false, none⟩
    else if !bw.buildImageOk then
      ⟨.error (.dockerError "Failed to build Docker image"),
       [Call.connect, Call.buildImage], true, false, false, none⟩
    else if !bw.runContainerOk then
      ⟨.error (.dockerError "Failed to run Docker container"),
       [Call.connect, Call.buildImage, Call.runContainer], true, true, false, none⟩
    else
      let tr3 := [Call.connect, Call.buildImage, Call.runContainer]
      match runTests opts bw with
      | (.error e, ttr) => ⟨.error e, tr3 ++ ttr, true, true, true, none⟩
      | (.ok _, ttr) =>
        let argv := splitWs cfg.installCommand
        let tr5 := tr3 ++ ttr ++ [Call.execCmd argv []]
        if bw.execExit argv ≠ 0 then
          ⟨.error (.dockerError ("Error executing install command: Install command failed: " ++
            cfg.installCommand)), tr5, true, true, true, none⟩
        else
          match collectFiles bw with
          | (.error e, ctr) => ⟨.error e, tr5 ++ ctr, true, true, true, none⟩
          | (.ok files, ctr) =>
            match createManifest opts cfg tempDir with
            | .error e => ⟨.error e, tr5 ++ ctr, true, true, true, none⟩
            | .ok (_m, mpath) =>
              ⟨.ok (), tr5 ++ ctr, true, true, true,
               some (packageFiles hostExists opts cfg files mpath)⟩

/-- `build()`: the try body, the top-level exception wrapping (builder
errors re-raised, anything else wrapped as "Build failed unexpectedly"),
and the `finally` that always runs `_cleanup` exactly once. -/
def runBuild (opts : Options) (fs : FS) (w : World) : BuildOutcome :=
  let b := buildBody opts fs w.body w.hostExists w.tempDir
  { b with
    result := b.result.mapError wrapUnexpected
    trace := b.trace ++ cleanupCalls b.clientObtained b.containerCreated b.imageCreated w.cleanup }

/-! ## Helper lemmas -/

/-- Occurrences of a call in a trace. -/
def countCall : List Call → Call → Nat
  | [], _ => 0
  | c :: cs, a => (if c = a then 1 else 0) + countCall cs a

theorem countCall_append (l₁ l₂ : List Call) (a : Call) :
    countCall (l₁ ++ l₂) a = countCall l₁ a + countCall l₂ a := by
  induction l₁ with
  | nil => simp [countCall]
  | cons c cs ih => simp [countCall, ih]; omega

/-- The four calls only `_cleanup` can issue. -/
def isTeardownCall : Call → Bool
  | .getContainer => true
  | .stopContainer => true
  | .removeContainer => true
  | .removeImage => true
  | _ => false

theorem countCall_eq_zero_of_teardown_free (l : List Call) (a : Call)
    (h : ∀ x ∈ l, isTeardownCall x = false) (ha : isTeardownCall a = true) :
    countCall l a = 0 := by
  induction l with
  | nil => rfl
  | cons c cs ih =>
    have hc := h c (by simp)
    have : c ≠ a := by
      intro he
      rw [he, ha] at hc
      exact Bool.noConfusion hc
    simp [countCall, this]
    exact ih (fun x hx => h x (by simp [hx]))

theorem not_mem_of_teardown_free (l : List Call) (a : Call)
    (h : ∀ x ∈ l, isTeardownCall x = false) (ha : isTeardownCall a = true) :
    a ∉ l := by
  intro hmem
  have := h a hmem
  rw [ha] at this
  exact Bool.noConfusion this

theorem runTests_teardown_free (opts : Options) (w : BodyWorld) :
    ∀ x ∈ (runTests opts w).2, isTeardownCall x = false := by
  intro x hx
  unfold runTests at hx
  split at hx
  · simp at hx
  · split at hx
    · simp at hx; subst hx; rfl
    · split at hx
      · split at hx
        · simp at hx
          rcases hx with rfl | rfl | rfl <;> rfl
        · split at hx <;>
          · simp at hx
            rcases hx with rfl | rfl | rfl | rfl | rfl <;> rfl
      · split at hx
        · split at hx <;>
          · simp at hx
            rcases hx with rfl | rfl | rfl | rfl | rfl <;> rfl
        · simp at hx
          rcases hx with rfl | rfl | rfl <;> rfl

theorem licenseCalls_teardown_free (w : BodyWorld) :
    ∀ x ∈ licenseCalls w, isTeardownCall x = false := by
  intro x hx
  unfold licenseCalls at hx
  split at hx <;> simp at hx
  · rcases hx with rfl | rfl <;> rfl
  · subst hx; rfl

theorem collectFiles_teardown_free (w : BodyWorld) :
    ∀ x ∈ (collectFiles w).2, isTeardownCall x = false := by
  intro x hx
  unfold collectFiles at hx
  split at hx
  · simp at hx; subst hx; rfl
  · split at hx
    · simp at hx
      rcases hx with rfl | hx
      · rfl
      · exact licenseCalls_teardown_free w x hx
    · split at hx
      · simp at hx
        rcases hx with rfl | rfl <;> rfl
      · simp at hx
        rcases hx with rfl | rfl | hx
        · rfl
        · rfl
        · exact licenseCalls_teardown_free w x hx

theorem countCall_runTests_zero (opts : Options) (w : BodyWorld) (a : Call)
    (ha : isTeardownCall a = true) :
    countCall (runTests opts w).2 a = 0 :=
  countCall_eq_zero_of_teardown_free _ _ (runTests_teardown_free opts w) ha

theorem countCall_collectFiles_zero (w : BodyWorld) (a : Call)
    (ha : isTeardownCall a = true) :
    countCall (collectFiles w).2 a = 0 :=
  countCall_eq_zero_of_teardown_free _ _ (collectFiles_teardown_free w) ha

theorem countCall_ite_zero {c : Prop} [Decidable c] {r1 r2 : BuildOutcome} {a : Call}
    (k1 : countCall r1.trace a = 0) (k2 : countCall r2.trace a = 0) :
    countCall (if c then r1 else r2).trace a = 0 := by
  split
  · exact k1
  · exact k2

theorem buildBody_teardown_count (opts : Options) (fs : FS) (bw : BodyWorld)
    (he : String → Bool) (td : String) (a : Call) (ha : isTeardownCall a = true) :
    countCall (buildBody opts fs bw he td).trace a = 0 := by
  have hane : ∀ (c : Call), isTeardownCall c = false → c ≠ a := by
    intro c hc he2
    rw [he2, ha] at hc
    exact Bool.noConfusion hc
  have h1 : Call.connect ≠ a := hane _ rfl
  have h2 : Call.buildImage ≠ a := hane _ rfl
  have h3 : Call.runContainer ≠ a := hane _ rfl
  have h4 : ∀ (l e : List String), Call.execCmd l e ≠ a := fun l e => hane _ rfl
  unfold buildBody
  split
  · rfl
  rename_i cfg hval
  split
  · simp [countCall, h1]
  split
  · simp [countCall, h1, h2]
  split
  · simp [countCall, h1, h2, h3]
  have hrt := countCall_runTests_zero opts bw a ha
  rcases hrtp : runTests opts bw with ⟨rres, ttr⟩
  rw [hrtp] at hrt
  have hrt2 : countCall ttr a = 0 := hrt
  cases rres with
  | error e => simp [countCall, countCall_append, h1, h2, h3, hrt2]
  | ok u =>
    split
    · rename_i heqbad
      simp at heqbad
    rename_i u2 ttr2 heqok
    simp only [Prod.mk.injEq] at heqok
    obtain ⟨h5, h6⟩ := heqok
    subst h6
    have hcf := countCall_collectFiles_zero bw a ha
    rcases hccp : collectFiles bw with ⟨cres, ctr⟩
    rw [hccp] at hcf
    have hcf2 : countCall ctr a = 0 := hcf
    cases cres with
    | error e2 =>
      exact countCall_ite_zero
        (by simp [countCall, countCall_append, h1, h2, h3, h4, hrt2, hcf2])
        (by simp [countCall, countCall_append, h1, h2, h3, h4, hrt2, hcf2])
    | ok files =>
      rcases hcmp : createManifest opts cfg td with e3 | pm
      · exact countCall_ite_zero
          (by simp [countCall, countCall_append, h1, h2, h3, h4, hrt2, hcf2])
          (by simp [countCall, countCall_append, h1, h2, h3, h4, hrt2, hcf2])
      · rcases pm with ⟨m, mpath⟩
        exact countCall_ite_zero
          (by simp [countCall, countCall_append, h1, h2, h3, h4, hrt2, hcf2])
          (by simp [countCall, countCall_append, h1, h2, h3, h4, hrt2, hcf2])

theorem cleanupCalls_removeImage_one (co : Bool) (c : CleanupWorld) :
    countCall (cleanupCalls true co true c) Call.removeImage = 1 := by
  rcases c with ⟨g, r, s, rc, ri⟩
  cases co <;> cases g <;> cases r <;> cases s <;> rfl

theorem cleanupCalls_removeImage_zero (cl co : Bool) (c : CleanupWorld) :
    countCall (cleanupCalls cl co false c) Call.removeImage = 0 := by
  rcases c with ⟨g, r, s, rc, ri⟩
  cases cl <;> cases co <;> cases g <;> cases r <;> cases s <;> rfl

theorem cleanupCalls_getContainer_one (im : Bool) (c : CleanupWorld) :
    countCall (cleanupCalls true true im c) Call.getContainer = 1 := by
  rcases c with ⟨g, r, s, rc, ri⟩
  cases im <;> cases g <;> cases r <;> cases s <;> rfl

theorem cleanupCalls_stop_mem (im : Bool) (c : CleanupWorld)
    (hg : c.getContainerOk = true) (hr : c.containerRunning = true) :
    Call.stopContainer ∈ cleanupCalls true true im c := by
  rcases c with ⟨g, r, s, rc, ri⟩
  simp only at hg hr
  subst hg
  subst hr
  cases im <;> cases s <;> simp [cleanupCalls]

theorem cleanupCalls_removeContainer_one (im : Bool) (c : CleanupWorld)
    (hg : c.getContainerOk = true) (hs : c.containerRunning = true → c.stopOk = true) :
    countCall (cleanupCalls true true im c) Call.removeContainer = 1 := by
  rcases c with ⟨g, r, s, rc, ri⟩
  simp only at hg hs
  subst hg
  cases r with
  | true =>
    have hs2 := hs rfl
    subst hs2
    cases im <;> rfl
  | false => cases im <;> cases s <;> rfl

/-! ## Concrete fixtures used by witnesses and counterexamples -/

/-- A builder invoked with every optional field unset. -/
def opts0 : Options := {}

/-- A source tree with one control file, a Dockerfile and no Makefile. -/
def fsOk : FS :=
  { resolve := fun s => s
    pathExists := fun s => s == "." || s == "./Dockerfile"
    isDir := fun s => s == "."
    dirFiles := fun s => if s == "." then ["demo.control"] else []
    fileLines := fun _ => ["default_version = \x271.0\x27", "comment = \x27demo extension\x27"] }

def heTrue : String → Bool := fun _ => true

/-- A world in which every engine call succeeds. -/
def worldOk : World :=
  { body := {}, cleanup := {}, hostExists := heTrue, tempDir := "/tmp/pgxm" }

/-! ## Claim theorems -/

/-- Claim C1: for every build invocation in which a Docker client handle was
obtained, teardown runs exactly once on every exit path: a created image is
force-removed exactly once (and never removed when it was not created), a
created container is looked up exactly once, stopped whenever the engine
reports it running, and removed once whenever the lookup succeeds and stop
does not fail, a failure in the container-cleanup block never prevents the
image-removal attempt (the image count is 1 for every cleanup world), and no
teardown failure alters the build result (the result is identical across
arbitrary cleanup worlds). -/
theorem claim_C1_lifecycle_guard (opts : Options) (fs : FS) (bw : BodyWorld)
    (c c' : CleanupWorld) (he : String → Bool) (td : String)
    (hclient : (runBuild opts fs ⟨bw, c, he, td⟩).clientObtained = true) :
    ((runBuild opts fs ⟨bw, c, he, td⟩).imageCreated = true →
       countCall (runBuild opts fs ⟨bw, c, he, td⟩).trace Call.removeImage = 1)
    ∧ ((runBuild opts fs ⟨bw, c, he, td⟩).imageCreated = false →
       countCall (runBuild opts fs ⟨bw, c, he, td⟩).trace Call.removeImage = 0)
    ∧ ((runBuild opts fs ⟨bw, c, he, td⟩).containerCreated = true →
         countCall (runBuild opts fs ⟨bw, c, he, td⟩).trace Call.getContainer = 1
         ∧ (c.getContainerOk = true → c.containerRunning = true →
             Call.stopContainer ∈ (runBuild opts fs ⟨bw, c, he, td⟩).trace)
         ∧ (c.getContainerOk = true → (c.containerRunning = true → c.stopOk = true) →
             countCall (runBuild opts fs ⟨bw, c, he, td⟩).trace Call.removeContainer = 1))
    ∧ (runBuild opts fs ⟨bw, c, he, td⟩).result = (runBuild opts fs ⟨bw, c', he, td⟩).result := by
  have hclient2 : (buildBody opts fs bw he td).clientObtained = true := hclient
  have htr : (runBuild opts fs ⟨bw, c, he, td⟩).trace =
      (buildBody opts fs bw he td).trace ++
        cleanupCalls (buildBody opts fs bw he td).clientObtained
          (buildBody opts fs bw he td).containerCreated
          (buildBody opts fs bw he td).imageCreated c := rfl
  refine ⟨?_, ?_, ?_, rfl⟩
  · intro him
    have him2 : (buildBody opts fs bw he td).imageCreated = true := him
    rw [htr, countCall_append, buildBody_teardown_count opts fs bw he td Call.removeImage rfl,
      hclient2, him2, cleanupCalls_removeImage_one]
  · intro him
    have him2 : (buildBody opts fs bw he td).imageCreated = false := him
    rw [htr, countCall_append, buildBody_teardown_count opts fs bw he td Call.removeImage rfl,
      him2, cleanupCalls_removeImage_zero]
  · intro hco
    have hco2 : (buildBody opts fs bw he td).containerCreated = true := hco
    refine ⟨?_, ?_, ?_⟩
    · rw [htr, countCall_append, buildBody_teardown_count opts fs bw he td Call.getContainer rfl,
        hclient2, hco2, cleanupCalls_getContainer_one]
    · intro hg hr
      have hmem := cleanupCalls_stop_mem (buildBody opts fs bw he td).imageCreated c hg hr
      rw [htr]
      refine List.mem_append.mpr (Or.inr ?_)
      rw [hclient2, hco2]
      exact hmem
    · intro hg hs
      rw [htr, countCall_append,
        buildBody_teardown_count opts fs bw he td Call.removeContainer rfl,
        hclient2, hco2, cleanupCalls_removeContainer_one _ c hg hs]

/-- Witness for C1 at a concrete all-succeeding build. -/
theorem claim_C1_lifecycle_guard_witness :
    ((runBuild opts0 fsOk ⟨{}, {}, heTrue, "/tmp/pgxm"⟩).imageCreated = true →
       countCall (runBuild opts0 fsOk ⟨{}, {}, heTrue, "/tmp/pgxm"⟩).trace Call.removeImage = 1)
    ∧ ((runBuild opts0 fsOk ⟨{}, {}, heTrue, "/tmp/pgxm"⟩).imageCreated = false →
       countCall (runBuild opts0 fsOk ⟨{}, {}, heTrue, "/tmp/pgxm"⟩).trace Call.removeImage = 0)
    ∧ ((runBuild opts0 fsOk ⟨{}, {}, heTrue, "/tmp/pgxm"⟩).containerCreated = true →
         countCall (runBuild opts0 fsOk ⟨{}, {}, heTrue, "/tmp/pgxm"⟩).trace Call.getContainer = 1
         ∧ ((CleanupWorld.mk true true true true true).getContainerOk = true →
             (CleanupWorld.mk true true true true true).containerRunning = true →
             Call.stopContainer ∈ (runBuild opts0 fsOk ⟨{}, {}, heTrue, "/tmp/pgxm"⟩).trace)
         ∧ ((CleanupWorld.mk true true true true true).getContainerOk = true →
             ((CleanupWorld.mk true true true true true).containerRunning = true →
              (CleanupWorld.mk true true true true true).stopOk = true) →
             countCall (runBuild opts0 fsOk ⟨{}, {}, heTrue, "/tmp/pgxm"⟩).trace
               Call.removeContainer = 1))
    ∧ (runBuild opts0 fsOk ⟨{}, {}, heTrue, "/tmp/pgxm"⟩).result =
        (runBuild opts0 fsOk ⟨{}, {}, heTrue, "/tmp/pgxm"⟩).result :=
  claim_C1_lifecycle_guard opts0 fsOk {} {} {} heTrue "/tmp/pgxm" (by decide)

/-- The error shapes `_validate` can produce: a configuration error, the
base builder error for an empty control mapping, or a raw `IndexError`
escaping from name resolution. -/
def validateErrShape (e : BuildErr) : Bool :=
  isConfigError e ||
  (e == BuildErr.builderError "Control file must be read before determining name/version.") ||
  (errKind e == ErrKind.index)

theorem finalNameOf_error_is_index (o : Option String) (ctrl : List (String × String))
    (e : BuildErr) (h : finalNameOf o ctrl = .error e) : errKind e = ErrKind.index := by
  unfold finalNameOf at h
  split at h
  · simp at h
  · split at h
    · simp at h
    · split at h
      · injection h with h1
        subst h1
        rfl
      · split at h <;> simp at h

theorem locateDockerfile_error_is_config (opts : Options) (fs : FS) (extPath : String)
    (e : BuildErr) (h : locateDockerfile opts fs extPath = .error e) :
    isConfigError e = true := by
  unfold locateDockerfile at h
  split at h
  · simp at h
  · split at h
    · simp at h
    · injection h with h1
      subst h1
      rfl

/-- Claim C2 (amended): configuration resolution either completes with a
fully resolved configuration or fails with one of the validation error
shapes — a configuration error for a bad path, missing control file or
missing Dockerfile, the base builder error when the control file parses to
an empty mapping, or a raw `IndexError` from the name chain — and every
such failure surfaces before any container-engine call: the engine trace
of a build whose validation fails is empty. -/
theorem claim_C2_validate_fails_before_engine (opts : Options) (fs : FS) :
    (∀ e, validate opts fs = .error e → validateErrShape e = true)
    ∧ (∀ (w : World) (e : BuildErr), validate opts fs = .error e →
        (runBuild opts fs w).trace = [] ∧
        (runBuild opts fs w).result = .error (wrapUnexpected e)) := by
  constructor
  · intro e h
    unfold validate at h
    split at h
    · injection h with h1
      subst h1
      rfl
    · split at h
      · injection h with h1
        subst h1
        rfl
      · split at h
        · injection h with h1
          subst h1
          rfl
        · split at h
          · rename_i e2 heq
            injection h with h1
            subst h1
            have := finalNameOf_error_is_index _ _ _ heq
            simp [validateErrShape, this]
          · split at h
            · rename_i e2 heq
              injection h with h1
              subst h1
              have := locateDockerfile_error_is_config _ _ _ _ heq
              simp [validateErrShape, this]
            · simp at h
  · intro w e h
    have hb : buildBody opts fs w.body w.hostExists w.tempDir =
        ⟨.error e, [], false, false, false, none⟩ := by
      unfold buildBody
      rw [h]
    have htr : (runBuild opts fs w).trace =
        (buildBody opts fs w.body w.hostExists w.tempDir).trace ++
          cleanupCalls (buildBody opts fs w.body w.hostExists w.tempDir).clientObtained
            (buildBody opts fs w.body w.hostExists w.tempDir).containerCreated
            (buildBody opts fs w.body w.hostExists w.tempDir).imageCreated w.cleanup := rfl
    have hres : (runBuild opts fs w).result =
        (buildBody opts fs w.body w.hostExists w.tempDir).result.mapError wrapUnexpected := rfl
    constructor
    · rw [htr, hb]
      rfl
    · rw [hres, hb]
      rfl

/-- A source tree whose control file contains no `key = value` line, so the
parsed control mapping is empty. -/
def fsEmptyCtrl : FS :=
  { resolve := fun s => s
    pathExists := fun s => s == "."
    isDir := fun s => s == "."
    dirFiles := fun s => if s == "." then ["empty.control"] else []
    fileLines := fun _ => ["# nothing but a comment"] }

/-- Counterexample to C2 as stated: with a control file that parses to an
empty mapping, `_validate` fails with the base `PgxmBuilderError`, which is
not a `PgxmBuilderConfigError`, so not every resolution failure is a
configuration error. -/
theorem claim_C2_counterexample :
    validate opts0 fsEmptyCtrl =
      .error (.builderError "Control file must be read before determining name/version.")
    ∧ isConfigError
        (.builderError "Control file must be read before determining name/version.") = false :=
  ⟨rfl, rfl⟩

/-- Witness for C2 at the concrete empty-control-file input. -/
theorem claim_C2_validate_fails_before_engine_witness :
    validateErrShape
      (.builderError "Control file must be read before determining name/version.") = true
    ∧ (runBuild opts0 fsEmptyCtrl worldOk).trace = []
    ∧ (runBuild opts0 fsEmptyCtrl worldOk).result =
        .error (wrapUnexpected
          (.builderError "Control file must be read before determining name/version.")) :=
  ⟨(claim_C2_validate_fails_before_engine opts0 fsEmptyCtrl).1 _ rfl,
   ((claim_C2_validate_fails_before_engine opts0 fsEmptyCtrl).2 worldOk _ rfl).1,
   ((claim_C2_validate_fails_before_engine opts0 fsEmptyCtrl).2 worldOk _ rfl).2⟩

theorem cleanupCalls_teardown_only (cl co im : Bool) (c : CleanupWorld) :
    ∀ x ∈ cleanupCalls cl co im c, isTeardownCall x = true := by
  intro x hx
  unfold cleanupCalls at hx
  split at hx
  · simp at hx
  · rcases List.mem_append.mp hx with h | h
    · split at h
      · rcases List.mem_append.mp h with h2 | h2
        · simp at h2
          subst h2
          rfl
        · split at h2
          · simp at h2
          · split at h2
            · rcases List.mem_append.mp h2 with h3 | h3
              · simp at h3
                subst h3
                rfl
              · split at h3
                · simp at h3
                  subst h3
                  rfl
                · simp at h3
            · simp at h2
              subst h2
              rfl
      · simp at h
    · split at h
      · simp at h
        subst h
        rfl
      · simp at h

/-- Options of a builder invoked with testing requested and nothing else. -/
def optsTest : Options := { test := true }

/-- A container whose Makefile has only a `check` target, and in which every
exec returns exit code 1. -/
def wTestFail : BodyWorld :=
  { makefilePath := some "/src/ext/Makefile"
    hasTarget := fun t => t == "check"
    execExit := fun _ => 1 }

/-- A world in which connecting to the Docker daemon fails. -/
def worldConnectFail : World :=
  { body := { connectOk := false }, cleanup := {}, hostExists := heTrue, tempDir := "/tmp/pgxm" }

/-- Counterexample to C3 as stated: a test failure (`make check` exiting 1)
raises `PgxmBuilderDockerError`, exactly the class raised for a
container-engine failure (here: failing to connect), so the caller cannot
tell the two apart by exception type. -/
theorem claim_C3_counterexample :
    (runTests optsTest wTestFail).1 =
      .error (.dockerError "Error during test execution: Tests (check) failed.")
    ∧ (runBuild opts0 fsOk worldConnectFail).result =
      .error (.dockerError "Failed to connect to Docker")
    ∧ resultErrKind (runTests optsTest wTestFail).1 =
        resultErrKind (runBuild opts0 fsOk worldConnectFail).result :=
  ⟨rfl, rfl, rfl⟩

/-- Claim C3 (amended): a non-zero exit from `make install`, `make check` or
`make installcheck` during test execution is fatal and surfaces as
`PgxmBuilderDockerError` — the same exception class as the generic engine
errors — so a caller can distinguish the two conditions only by message,
not by type. -/
theorem claim_C3_test_failures_docker_kind (opts : Options) (w : BodyWorld) (mf : String)
    (ht : opts.test = true) (hm : w.makefilePath = some mf) :
    (w.hasTarget "installcheck" = true → w.execExit ["make", "install"] ≠ 0 →
       resultErrKind (runTests opts w).1 = some ErrKind.docker)
    ∧ (w.hasTarget "installcheck" = true → w.execExit ["make", "install"] = 0 →
       w.execExit ["make", "installcheck"] ≠ 0 →
       resultErrKind (runTests opts w).1 = some ErrKind.docker)
    ∧ (w.hasTarget "installcheck" = false → w.hasTarget "check" = true →
       w.execExit ["make", "check"] ≠ 0 →
       resultErrKind (runTests opts w).1 = some ErrKind.docker) := by
  refine ⟨?_, ?_, ?_⟩
  · intro h1 h2
    simp [runTests, ht, hm, h1, h2, resultErrKind, errKind]
  · intro h1 h2 h3
    simp [runTests, ht, hm, h1, h2, h3, resultErrKind, errKind]
  · intro h1 h2 h3
    simp [runTests, ht, hm, h1, h2, h3, resultErrKind, errKind]

/-- Witness for C3 (amended) at the concrete failing `make check` run. -/
theorem claim_C3_test_failures_docker_kind_witness :
    resultErrKind (runTests optsTest wTestFail).1 = some ErrKind.docker :=
  (claim_C3_test_failures_docker_kind optsTest wTestFail "/src/ext/Makefile"
    rfl rfl).2.2 rfl rfl (by decide)

/-- Claim C4, evaluated at the failing input: with no override and a control
file whose only entry is an empty `comment` (and no `module_pathname`), the
name chain raises `IndexError` from `"".split()[0]` instead of reaching the
`"unknown-extension"` fallback the chain ends in; the version chain at the
spec scenario resolves `default_version = '2.1.0'` to `2.1.0` with the
surrounding quotes stripped. -/
theorem claim_C4_name_chain_index_error :
    readControlFileData ["comment = \x27\x27"] = [("comment", "")]
    ∧ finalNameOf none [("comment", "")] = .error (.indexError "list index out of range")
    ∧ readControlFileData ["default_version = \x272.1.0\x27"] = [("default_version", "2.1.0")]
    ∧ finalVersionOf none [("default_version", "2.1.0")] = "2.1.0" :=
  ⟨rfl, rfl, rfl, rfl⟩

/-- Claim C5: when testing is requested, a Makefile is found and it contains
an `installcheck` target (whether or not it also contains `check`), the
executed sequence is exactly `make install`, then the Postgres start, then
`make installcheck` with `PGUSER=postgres`; a non-zero exit from
`make install` stops the sequence before `installcheck`, surfaces as an
error, and is fatal to the whole build. -/
theorem claim_C5_installcheck_priority_and_sequence (opts : Options) (w : BodyWorld)
    (mf : String) (ht : opts.test = true) (hm : w.makefilePath = some mf)
    (hic : w.hasTarget "installcheck" = true) :
    (w.execExit ["make", "install"] = 0 →
      (runTests opts w).2 =
        [Call.locateMakefile, Call.checkTarget "installcheck",
         Call.execCmd ["make", "install"] [], Call.startPostgres,
         Call.execCmd ["make", "installcheck"] ["PGUSER=postgres"]])
    ∧ (w.execExit ["make", "install"] ≠ 0 →
        (runTests opts w).1 = .error (.dockerError
          "Error during test execution: \x27make install\x27 failed before \x27installcheck\x27.")
        ∧ (runTests opts w).2 =
            [Call.locateMakefile, Call.checkTarget "installcheck",
             Call.execCmd ["make", "install"] []]
        ∧ Call.execCmd ["make", "installcheck"] ["PGUSER=postgres"] ∉ (runTests opts w).2
        ∧ Call.execCmd ["make", "check"] ["PGUSER=postgres"] ∉ (runTests opts w).2)
    ∧ (∀ (fs : FS) (wd : World) (cfg : BuildConfig), wd.body = w →
        validate opts fs = .ok cfg →
        w.connectOk = true → w.buildImageOk = true → w.runContainerOk = true →
        w.execExit ["make", "install"] ≠ 0 →
        (runBuild opts fs wd).result = .error (.dockerError
          "Error during test execution: \x27make install\x27 failed before \x27installcheck\x27.")
        ∧ Call.execCmd ["make", "installcheck"] ["PGUSER=postgres"] ∉ (runBuild opts fs wd).trace) := by
  refine ⟨?_, ?_, ?_⟩
  · intro h1
    simp only [runTests, ht, hm, hic, h1]
    simp only [Bool.not_true, Bool.false_eq_true, if_false, if_true, ne_eq,
      not_true_eq_false, ite_self]
    split <;> rfl
  · intro h1
    refine ⟨?_, ?_, ?_, ?_⟩ <;> simp [runTests, ht, hm, hic, h1]
  · intro fs wd cfg hwd hval hc hb hr hfail
    have hrt : runTests opts w = (.error (.dockerError
        "Error during test execution: \x27make install\x27 failed before \x27installcheck\x27."),
        [Call.locateMakefile, Call.checkTarget "installcheck",
         Call.execCmd ["make", "install"] []]) := by
      simp [runTests, ht, hm, hic, hfail]
    have hb2 : buildBody opts fs wd.body wd.hostExists wd.tempDir =
        ⟨.error (.dockerError
          "Error during test execution: \x27make install\x27 failed before \x27installcheck\x27."),
         [Call.connect, Call.buildImage, Call.runContainer, Call.locateMakefile,
          Call.checkTarget "installcheck", Call.execCmd ["make", "install"] []],
         true, true, true, none⟩ := by
      simp [buildBody, hval, hwd, hc, hb, hr, hrt]
    have hres : (runBuild opts fs wd).result =
        (buildBody opts fs wd.body wd.hostExists wd.tempDir).result.mapError wrapUnexpected := rfl
    have htr : (runBuild opts fs wd).trace =
        (buildBody opts fs wd.body wd.hostExists wd.tempDir).trace ++
          cleanupCalls (buildBody opts fs wd.body wd.hostExists wd.tempDir).clientObtained
            (buildBody opts fs wd.body wd.hostExists wd.tempDir).containerCreated
            (buildBody opts fs wd.body wd.hostExists wd.tempDir).imageCreated wd.cleanup := rfl
    constructor
    · rw [hres, hb2]
      rfl
    · intro hmem
      rw [htr, hb2] at hmem
      rcases List.mem_append.mp hmem with h | h
      · simp at h
      · have hteard := cleanupCalls_teardown_only _ _ _ _ _ h
        simp [isTeardownCall] at hteard

/-- A container world with both test targets present and every exec
succeeding. -/
def wC5 : BodyWorld :=
  { makefilePath := some "/src/ext/Makefile"
    hasTarget := fun _ => true }

/-- Witness for C5: a concrete run with both targets present and a passing
install executes exactly the install, postgres-start, installcheck
sequence. -/
theorem claim_C5_installcheck_priority_and_sequence_witness :
    (runTests optsTest wC5).2 =
      [Call.locateMakefile, Call.checkTarget "installcheck",
       Call.execCmd ["make", "install"] [], Call.startPostgres,
       Call.execCmd ["make", "installcheck"] ["PGUSER=postgres"]] :=
  (claim_C5_installcheck_priority_and_sequence optsTest wC5 "/src/ext/Makefile"
    rfl rfl rfl).1 rfl

/-! ## Archive-assembly lemmas -/

theorem strListContains_iff (l : List String) (a : String) :
    strListContains l a = true ↔ a ∈ l := by
  induction l with
  | nil => simp [strListContains]
  | cons x xs ih =>
    simp [strListContains, ih]
    constructor
    · rintro (h | h)
      · exact Or.inl h.symm
      · exact Or.inr h
    · rintro (h | h)
      · exact Or.inl h.symm
      · exact Or.inr h

theorem andSplit {a b : Bool} (h : (a && b) = true) : a = true ∧ b = true := by
  cases a <;> cases b <;> simp_all

theorem aae_sublist (he : String → Bool) (l : List (String × String)) :
    ∀ (added : List String),
    List.Sublist (addArchiveEntries he l added)
      (l.map (fun p => (p.1, normalizeArchivePath p.2))) := by
  induction l with
  | nil => intro added; simp [addArchiveEntries]
  | cons q rest ih =>
    intro added
    unfold addArchiveEntries
    split
    · exact List.Sublist.cons₂ _ (ih _)
    · exact List.Sublist.cons _ (ih _)

theorem aae_host (he : String → Bool) (l : List (String × String)) :
    ∀ (added : List String) (p : String × String),
    p ∈ addArchiveEntries he l added → he p.1 = true := by
  induction l with
  | nil => intro added p hp; simp [addArchiveEntries] at hp
  | cons q rest ih =>
    intro added p hp
    unfold addArchiveEntries at hp
    split at hp
    · rename_i hcond
      rcases List.mem_cons.mp hp with heq | hp2
      · subst heq
        exact (andSplit hcond).1
      · exact ih _ p hp2
    · exact ih _ p hp

theorem aae_paths_nodup (he : String → Bool) (l : List (String × String)) :
    ∀ (added : List String),
    ((addArchiveEntries he l added).map Prod.snd).Nodup
    ∧ ∀ a ∈ (addArchiveEntries he l added).map Prod.snd, a ∉ added := by
  induction l with
  | nil => intro added; simp [addArchiveEntries]
  | cons q rest ih =>
    intro added
    unfold addArchiveEntries
    split
    · rename_i hcond
      have hcond2 := andSplit hcond
      have hnotin : normalizeArchivePath q.2 ∉ added := by
        intro hmem
        have hc := (strListContains_iff added (normalizeArchivePath q.2)).mpr hmem
        rw [hc] at hcond2
        exact Bool.noConfusion hcond2.2
      obtain ⟨ihn, ihd⟩ := ih (normalizeArchivePath q.2 :: added)
      constructor
      · simp only [List.map_cons]
        refine List.nodup_cons.mpr ⟨?_, ihn⟩
        intro hmem
        exact ihd _ hmem (List.mem_cons_self _ _)
      · intro a ha
        simp only [List.map_cons] at ha
        rcases List.mem_cons.mp ha with heq | ha2
        · subst heq
          exact hnotin
        · intro hmem
          exact ihd a ha2 (List.mem_cons_of_mem _ hmem)
    · exact ih added

theorem aae_complete (he : String → Bool) (l : List (String × String)) :
    ∀ (added : List String) (a : String),
    (∃ p, p ∈ l ∧ he p.1 = true ∧ normalizeArchivePath p.2 = a) → a ∉ added →
    a ∈ (addArchiveEntries he l added).map Prod.snd := by
  induction l with
  | nil =>
    intro added a hex _
    obtain ⟨p, hp, _⟩ := hex
    simp at hp
  | cons q rest ih =>
    intro added a hex hna
    obtain ⟨p, hp, hhe, hnorm⟩ := hex
    unfold addArchiveEntries
    split
    · rename_i hcond
      by_cases heq2 : normalizeArchivePath q.2 = a
      · simp [heq2]
      · rcases List.mem_cons.mp hp with heqp | hp2
        · subst heqp
          exact absurd hnorm heq2
        · have hrec := ih (normalizeArchivePath q.2 :: added) a ⟨p, hp2, hhe, hnorm⟩ (by
            intro hmem
            rcases List.mem_cons.mp hmem with h | h
            · exact heq2 h.symm
            · exact hna h)
          simp only [List.map_cons]
          exact List.mem_cons_of_mem _ hrec
    · rename_i hcond
      rcases List.mem_cons.mp hp with heqp | hp2
      · subst heqp
        have hct : strListContains added (normalizeArchivePath p.2) = true := by
          cases hc : strListContains added (normalizeArchivePath p.2)
          · rw [hhe] at hcond
            rw [hc] at hcond
            simp at hcond
          · rfl
        have := (strListContains_iff _ _).mp hct
        rw [hnorm] at this
        exact absurd this hna
      · exact ih added a ⟨p, hp2, hhe, hnorm⟩ hna

theorem aae_first_wins (he : String → Bool) (p : String × String)
    (l₂ : List (String × String)) (l₁ : List (String × String)) :
    ∀ (added : List String), he p.1 = true → normalizeArchivePath p.2 ∉ added →
    (∀ q ∈ l₁, ¬(he q.1 = true ∧ normalizeArchivePath q.2 = normalizeArchivePath p.2)) →
    (p.1, normalizeArchivePath p.2) ∈ addArchiveEntries he (l₁ ++ p :: l₂) added := by
  induction l₁ with
  | nil =>
    intro added hhe hna _
    simp only [List.nil_append]
    unfold addArchiveEntries
    have hc : strListContains added (normalizeArchivePath p.2) = false := by
      cases hcc : strListContains added (normalizeArchivePath p.2)
      · rfl
      · exact absurd ((strListContains_iff _ _).mp hcc) hna
    simp [hhe, hc]
  | cons q rest ih =>
    intro added hhe hna hq
    simp only [List.cons_append]
    unfold addArchiveEntries
    split
    · rename_i hcond
      refine List.mem_cons_of_mem _ (ih _ hhe ?_ ?_)
      · intro hmem
        rcases List.mem_cons.mp hmem with h | h
        · exact hq q (List.mem_cons_self _ _) ⟨(andSplit hcond).1, h.symm⟩
        · exact hna h
      · intro r hr
        exact hq r (List.mem_cons_of_mem _ hr)
    · exact ih added hhe hna (fun r hr => hq r (List.mem_cons_of_mem _ hr))

theorem aae_append (he : String → Bool) (l₂ : List (String × String))
    (l₁ : List (String × String)) : ∀ (added : List String),
    addArchiveEntries he (l₁ ++ l₂) added =
      addArchiveEntries he l₁ added ++ addArchiveEntries he l₂ (addedAfter he l₁ added) := by
  induction l₁ with
  | nil => intro added; simp [addArchiveEntries, addedAfter]
  | cons q rest ih =>
    intro added
    simp only [List.cons_append, addArchiveEntries, addedAfter]
    split
    · simp only [List.append_eq, List.cons_append, ih]
    · exact ih _

theorem addedAfter_mem (he : String → Bool) (l : List (String × String)) :
    ∀ (added : List String) (a : String), a ∈ addedAfter he l added →
    a ∈ added ∨ ∃ p, p ∈ l ∧ a = normalizeArchivePath p.2 := by
  induction l with
  | nil => intro added a h; exact Or.inl h
  | cons q rest ih =>
    intro added a h
    unfold addedAfter at h
    split at h
    · rcases ih _ _ h with h2 | h2
      · rcases List.mem_cons.mp h2 with h3 | h3
        · exact Or.inr ⟨q, List.mem_cons_self _ _, h3⟩
        · exact Or.inl h3
      · obtain ⟨p, hp, hn⟩ := h2
        exact Or.inr ⟨p, List.mem_cons_of_mem _ hp, hn⟩
    · rcases ih _ _ h with h2 | h2
      · exact Or.inl h2
      · obtain ⟨p, hp, hn⟩ := h2
        exact Or.inr ⟨p, List.mem_cons_of_mem _ hp, hn⟩

/-- A resolved configuration used by concrete packaging scenarios. -/
def cfg0 : BuildConfig :=
  { extensionPath := "."
    outputDir := "./.pgxm"
    controlData := [("default_version", "1.0"), ("comment", "demo extension")]
    finalName := "demo"
    finalVersion := "1.0"
    dockerfilePath := "./Dockerfile"
    installCommand := "make install" }

/-- Claim C6: archive assembly iterates the collected list (with the
manifest appended) in order — the added entries form an order-preserving
selection of the normalized input; every added entry's host file exists
(missing hosts are skipped without failing, the loop is total); the added
archive paths are pairwise distinct; every archive path backed by an
existing host file does appear; and the first occurrence wins — an entry
whose earlier occurrences (same normalized path) all lack an existing host
is the one that is added. -/
theorem claim_C6_archive_assembly (he : String → Bool) (opts : Options) (cfg : BuildConfig)
    (collected : List (String × String)) (mp : String) :
    List.Sublist ((packageFiles he opts cfg collected mp).2)
        ((collected ++ [(mp, MANIFEST_FILENAME)]).map (fun p => (p.1, normalizeArchivePath p.2)))
    ∧ (∀ p ∈ (packageFiles he opts cfg collected mp).2, he p.1 = true)
    ∧ (((packageFiles he opts cfg collected mp).2).map Prod.snd).Nodup
    ∧ (∀ p ∈ collected ++ [(mp, MANIFEST_FILENAME)], he p.1 = true →
        normalizeArchivePath p.2 ∈ ((packageFiles he opts cfg collected mp).2).map Prod.snd)
    ∧ (∀ (l₁ l₂ : List (String × String)) (p : String × String),
        collected ++ [(mp, MANIFEST_FILENAME)] = l₁ ++ p :: l₂ → he p.1 = true →
        (∀ q ∈ l₁, ¬(he q.1 = true ∧ normalizeArchivePath q.2 = normalizeArchivePath p.2)) →
        (p.1, normalizeArchivePath p.2) ∈ (packageFiles he opts cfg collected mp).2) := by
  have hpf : (packageFiles he opts cfg collected mp).2 =
      addArchiveEntries he (collected ++ [(mp, MANIFEST_FILENAME)]) [] := rfl
  rw [hpf]
  refine ⟨aae_sublist he _ [], fun p hp => aae_host he _ [] p hp,
    (aae_paths_nodup he _ []).1, ?_, ?_⟩
  · intro p hp hhe
    exact aae_complete he _ [] _ ⟨p, hp, hhe, rfl⟩ (by simp)
  · intro l₁ l₂ p hdecomp hhe hq
    rw [hdecomp]
    exact aae_first_wins he p l₂ l₁ [] hhe (by simp) hq

def heNotGone : String → Bool := fun s => !(s == "gone")

def filesC6 : List (String × String) := [("gone", "x"), ("f1", "a\\b"), ("f2", "a/b")]

/-- Witness for C6: the first existing-host occurrence of the (normalized)
archive path `a/b` is the one that lands in the archive, even though an
earlier entry with a missing host carries a different path and a later
entry repeats `a/b`. -/
theorem claim_C6_archive_assembly_witness :
    ("f1", normalizeArchivePath "a\\b") ∈
      (packageFiles heNotGone opts0 cfg0 filesC6 "/tmp/pgxm/manifest.json").2 :=
  (claim_C6_archive_assembly heNotGone opts0 cfg0 filesC6 "/tmp/pgxm/manifest.json").2.2.2.2
    [("gone", "x")] [("f2", "a/b"), ("/tmp/pgxm/manifest.json", MANIFEST_FILENAME)]
    ("f1", "a\\b") rfl (by decide) (by decide)

/-- Counterexample to C7 as stated: when a collected file already occupies
the `manifest.json` archive path, first-writer-wins drops the appended
manifest entry, so the produced archive's final entry is not the manifest
(and the created manifest file is not serialized at all). -/
theorem claim_C7_counterexample :
    (packageFiles heTrue opts0 cfg0
        [("/h/a", "manifest.json"), ("/h/b", "lib/x.so")] "/tmp/pgxm/manifest.json").2
      = [("/h/a", "manifest.json"), ("/h/b", "lib/x.so")]
    ∧ ((packageFiles heTrue opts0 cfg0
        [("/h/a", "manifest.json"), ("/h/b", "lib/x.so")] "/tmp/pgxm/manifest.json").2).getLast?
      = some ("/h/b", "lib/x.so") :=
  ⟨rfl, rfl⟩

theorem createManifest_path (opts : Options) (cfg : BuildConfig) (td : String)
    (m : Manifest) (p : String) (h : createManifest opts cfg td = .ok (m, p)) :
    p = td ++ "/" ++ MANIFEST_FILENAME := by
  unfold createManifest at h
  rcases hd : pySplitCsv (pyGet2 opts.extension_dependencies (some "")) with e | deps
  · rw [hd] at h
    simp [bind, Except.instMonad, Except.bind] at h
  · rw [hd] at h
    rcases hl : pySplitCsv (pyGet2 opts.preload_libraries (some "")) with e | libs
    · rw [hl] at h
      simp [bind, Except.instMonad, Except.bind] at h
    · rw [hl] at h
      simp only [bind, Except.instMonad, Except.bind, Except.ok.injEq, Prod.mk.injEq] at h
      exact h.2.symm

/-- Claim C7 (amended): the manifest is written to `<temp dir>/manifest.json`
and appended to the collected-file list after all build-produced and license
entries under the fixed top-level name `manifest.json`; in every archive in
which no collected entry already occupies the `manifest.json` archive path
(first-writer-wins would otherwise drop it), the manifest is the final
serialized entry. -/
theorem claim_C7_manifest_appended_last (he : String → Bool) (opts : Options)
    (cfg : BuildConfig) (files : List (String × String)) (td : String)
    (m : Manifest) (mp : String)
    (hman : createManifest opts cfg td = .ok (m, mp))
    (hnocol : ∀ p ∈ files, normalizeArchivePath p.2 ≠ MANIFEST_FILENAME)
    (hex : he mp = true) :
    mp = td ++ "/" ++ MANIFEST_FILENAME
    ∧ (packageFiles he opts cfg files mp).2 =
        addArchiveEntries he files [] ++ [(mp, MANIFEST_FILENAME)]
    ∧ ((packageFiles he opts cfg files mp).2).getLast? = some (mp, MANIFEST_FILENAME) := by
  have hpath := createManifest_path opts cfg td m mp hman
  have hnotin : MANIFEST_FILENAME ∉ addedAfter he files [] := by
    intro hmem
    rcases addedAfter_mem he files [] MANIFEST_FILENAME hmem with h | h
    · simp at h
    · obtain ⟨p, hp, hn⟩ := h
      exact hnocol p hp hn.symm
  have hcontains : strListContains (addedAfter he files []) MANIFEST_FILENAME = false := by
    cases hcc : strListContains (addedAfter he files []) MANIFEST_FILENAME
    · rfl
    · exact absurd ((strListContains_iff _ _).mp hcc) hnotin
  have h2 : (packageFiles he opts cfg files mp).2 =
      addArchiveEntries he files [] ++ [(mp, MANIFEST_FILENAME)] := by
    show addArchiveEntries he (files ++ [(mp, MANIFEST_FILENAME)]) [] = _
    rw [aae_append]
    congr 1
    have hnorm : normalizeArchivePath MANIFEST_FILENAME = MANIFEST_FILENAME := rfl
    simp [addArchiveEntries, hnorm, hex, hcontains]
  refine ⟨hpath, h2, ?_⟩
  rw [h2]
  exact List.getLast?_concat _

/-- The manifest record of the concrete C7 scenario. -/
def mC7 : Manifest :=
  { name := "demo"
    version := "1.0"
    pg_version := "15"
    description := "demo extension"
    dependencies := []
    preload_libraries := [] }

/-- Witness for C7 at a concrete collision-free packaging run. -/
theorem claim_C7_manifest_appended_last_witness :
    "/tmp/pgxm/manifest.json" = "/tmp/pgxm" ++ "/" ++ MANIFEST_FILENAME
    ∧ (packageFiles heTrue opts0 cfg0 [("h1", "lib/a.so")] "/tmp/pgxm/manifest.json").2 =
        addArchiveEntries heTrue [("h1", "lib/a.so")] [] ++
          [("/tmp/pgxm/manifest.json", MANIFEST_FILENAME)]
    ∧ ((packageFiles heTrue opts0 cfg0
          [("h1", "lib/a.so")] "/tmp/pgxm/manifest.json").2).getLast? =
        some ("/tmp/pgxm/manifest.json", MANIFEST_FILENAME) :=
  claim_C7_manifest_appended_last heTrue opts0 cfg0 [("h1", "lib/a.so")] "/tmp/pgxm"
    mC7 "/tmp/pgxm/manifest.json" rfl (by decide) rfl

/-- Claim C8: the archive filename is the pure function
`<name>-<version>-pg<pg_version>.tar.gz` of the resolved name, version and
pg_version alone, and the archive is placed in the resolved output
directory; no other option or input occurs in the equation. -/
theorem claim_C8_archive_filename (he : String → Bool) (opts : Options) (cfg : BuildConfig)
    (files : List (String × String)) (mp : String) :
    (packageFiles he opts cfg files mp).1 =
      cfg.outputDir ++ "/" ++
        packageFilename cfg.finalName cfg.finalVersion (opts.pg_version.getD DEFAULT_PG_VERSION)
    ∧ packageFilename cfg.finalName cfg.finalVersion (opts.pg_version.getD DEFAULT_PG_VERSION) =
        cfg.finalName ++ "-" ++ cfg.finalVersion ++ "-pg" ++
          (opts.pg_version.getD DEFAULT_PG_VERSION) ++ ".tar.gz" :=
  ⟨rfl, rfl⟩

/-- Claim C9: every license file collected for packaging is assigned the
archive path `licenses/` followed by the copied file's base name, whatever
its original container path was; and a successful collection returns
exactly the change-set entries followed by those license entries. -/
theorem claim_C9_license_archive_paths (w : BodyWorld) :
    (∀ p ∈ licenseEntriesOf w, p.2 = "licenses/" ++ pathName p.1)
    ∧ (∀ (files : List (String × String)) (tr : List Call),
        collectFiles w = (.ok files, tr) → files = mainEntriesOf w ++ licenseEntriesOf w) := by
  constructor
  · intro p hp
    unfold licenseEntriesOf at hp
    split at hp
    · simp at hp
    · split at hp
      · simp at hp
      · rcases List.mem_map.mp hp with ⟨q, hq, hqe⟩
        subst hqe
        rfl
  · intro files tr h
    unfold collectFiles at h
    split at h
    · simp at h
    · split at h
      · simp only [Prod.mk.injEq] at h
        obtain ⟨h1, _⟩ := h
        injection h1 with h2
        exact h2.symm
      · split at h
        · simp at h
        · simp only [Prod.mk.injEq] at h
          obtain ⟨h1, _⟩ := h
          injection h1 with h2
          exact h2.symm

/-- A container world that discovers one license file. -/
def w9 : BodyWorld :=
  { licensePaths := ["/usr/share/doc/LICENSE"]
    licenseInstr := [("/usr/share/doc/LICENSE", "licenses/LICENSE")]
    copyOut := fun ps => ps.map (fun p => ("/host" ++ p, p)) }

/-- Witness for C9 at a concrete collected license file. -/
theorem claim_C9_license_archive_paths_witness :
    ("/host/usr/share/doc/LICENSE", "licenses/LICENSE").2 =
      "licenses/" ++ pathName ("/host/usr/share/doc/LICENSE", "licenses/LICENSE").1 :=
  (claim_C9_license_archive_paths w9).1 _ (by decide)

theorem createManifest_none_attr (opts : Options) (cfg : BuildConfig) (td : String)
    (h : opts.extension_dependencies = some none ∨ opts.preload_libraries = some none) :
    createManifest opts cfg td =
      .error (.attributeError "\x27NoneType\x27 object has no attribute \x27split\x27") := by
  rcases h with h | h
  · unfold createManifest
    rw [h]
    rfl
  · unfold createManifest
    rw [h]
    rcases hd : pyGet2 opts.extension_dependencies (some "") with _ | s
    · rfl
    · rfl

theorem collectFiles_ok (w : BodyWorld) (hdiff : w.diffOk = true) (hcopy : w.copyOk = true) :
    (collectFiles w).1 = .ok (mainEntriesOf w ++ licenseEntriesOf w) := by
  unfold collectFiles
  simp only [hdiff, hcopy, Bool.not_true, Bool.false_eq_true, if_false]
  split <;> rfl

theorem collectFiles_diff_mem (w : BodyWorld) (hdiff : w.diffOk = true) :
    Call.diffFiles ∈ (collectFiles w).2 := by
  unfold collectFiles
  simp only [hdiff, Bool.not_true, Bool.false_eq_true, if_false]
  split
  · simp
  · split <;> simp

/-- Claim C10: the CLI build command always passes the
`extension_dependencies` and `preload_libraries` keys, with value `None`
whenever the flag is omitted; for every invocation in which either option
is present with value `None`, `_create_manifest` calls `.split(",")` on
`None` and raises `AttributeError`, so a build that has passed install and
collection fails wrapped as "Build failed unexpectedly" instead of
producing a package: the diff and install calls are in the trace but no
archive is produced. -/
theorem claim_C10_manifest_none_crash (opts : Options) (fs : FS) (w : World)
    (cfg : BuildConfig)
    (hnone : opts.extension_dependencies = some none ∨ opts.preload_libraries = some none)
    (hval : validate opts fs = .ok cfg)
    (hconn : w.body.connectOk = true) (himg : w.body.buildImageOk = true)
    (hrun : w.body.runContainerOk = true)
    (htest : (runTests opts w.body).1 = .ok ())
    (hinst : w.body.execExit (splitWs cfg.installCommand) = 0)
    (hdiff : w.body.diffOk = true) (hcopy : w.body.copyOk = true) :
    (∀ (p : String) (out ver nm ext lOpt plat df ic : Option String) (tb : Bool) (pg : String),
       (cliKwargs p out ver nm ext none lOpt plat df ic tb pg).extension_dependencies = some none)
    ∧ createManifest opts cfg w.tempDir =
        .error (.attributeError "\x27NoneType\x27 object has no attribute \x27split\x27")
    ∧ (runBuild opts fs w).result =
        .error (.builderError
          "Build failed unexpectedly: \x27NoneType\x27 object has no attribute \x27split\x27")
    ∧ (runBuild opts fs w).archive = none
    ∧ Call.diffFiles ∈ (runBuild opts fs w).trace
    ∧ Call.execCmd (splitWs cfg.installCommand) [] ∈ (runBuild opts fs w).trace := by
  have hcm := createManifest_none_attr opts cfg w.tempDir hnone
  rcases hrtp : runTests opts w.body with ⟨rres, ttr⟩
  rw [hrtp] at htest
  have hr : rres = .ok () := htest
  subst hr
  rcases hccp : collectFiles w.body with ⟨cres, ctr⟩
  have hok := collectFiles_ok w.body hdiff hcopy
  rw [hccp] at hok
  have hc : cres = .ok (mainEntriesOf w.body ++ licenseEntriesOf w.body) := hok
  subst hc
  have hbody : buildBody opts fs w.body w.hostExists w.tempDir =
      ⟨.error (.attributeError "\x27NoneType\x27 object has no attribute \x27split\x27"),
       Call.connect :: Call.buildImage :: Call.runContainer ::
         (ttr ++ Call.execCmd (splitWs cfg.installCommand) [] :: ctr),
       true, true, true, none⟩ := by
    simp only [buildBody, hval, hconn, himg, hrun, Bool.not_true, Bool.false_eq_true,
      if_false, hrtp, hinst, ne_eq, not_true_eq_false, hccp, hcm]
    simp
  have htr : (runBuild opts fs w).trace =
      (buildBody opts fs w.body w.hostExists w.tempDir).trace ++
        cleanupCalls (buildBody opts fs w.body w.hostExists w.tempDir).clientObtained
          (buildBody opts fs w.body w.hostExists w.tempDir).containerCreated
          (buildBody opts fs w.body w.hostExists w.tempDir).imageCreated w.cleanup := rfl
  have hres : (runBuild opts fs w).result =
      (buildBody opts fs w.body w.hostExists w.tempDir).result.mapError wrapUnexpected := rfl
  have harc : (runBuild opts fs w).archive =
      (buildBody opts fs w.body w.hostExists w.tempDir).archive := rfl
  have hdm := collectFiles_diff_mem w.body hdiff
  rw [hccp] at hdm
  refine ⟨fun _ _ _ _ _ _ _ _ _ _ _ => rfl, hcm, ?_, ?_, ?_, ?_⟩
  · rw [hres, hbody]
    rfl
  · rw [harc, hbody]
  · rw [htr, hbody]
    simp [hdm]
  · rw [htr, hbody]
    simp

/-- The configuration the CLI-defaults build resolves against `fsOk`. -/
def cfgCli : BuildConfig :=
  { extensionPath := "."
    outputDir := "./.pgxm"
    controlData := [("default_version", "1.0"), ("comment", "demo extension")]
    finalName := "demo"
    finalVersion := "1.0"
    dockerfilePath := "./Dockerfile"
    installCommand := "echo \x27No standard install command found. Please specify with -i.\x27" }

/-- Witness for C10: a concrete CLI invocation with every optional flag
omitted (so both comma-separated options are present with value `None`)
reaches manifest creation and fails there. -/
theorem claim_C10_manifest_none_crash_witness :
    (∀ (p : String) (out ver nm ext lOpt plat df ic : Option String) (tb : Bool) (pg : String),
       (cliKwargs p out ver nm ext none lOpt plat df ic tb pg).extension_dependencies = some none)
    ∧ createManifest (cliKwargs "." none none none none none none none none none false "15")
        cfgCli worldOk.tempDir =
        .error (.attributeError "\x27NoneType\x27 object has no attribute \x27split\x27")
    ∧ (runBuild (cliKwargs "." none none none none none none none none none false "15")
        fsOk worldOk).result =
        .error (.builderError
          "Build failed unexpectedly: \x27NoneType\x27 object has no attribute \x27split\x27")
    ∧ (runBuild (cliKwargs "." none none none none none none none none none false "15")
        fsOk worldOk).archive = none
    ∧ Call.diffFiles ∈ (runBuild (cliKwargs "." none none none none none none none none none
        false "15") fsOk worldOk).trace
    ∧ Call.execCmd (splitWs cfgCli.installCommand) [] ∈
        (runBuild (cliKwargs "." none none none none none none none none none false "15")
          fsOk worldOk).trace :=
  claim_C10_manifest_none_crash
    (cliKwargs "." none none none none none none none none none false "15")
    fsOk worldOk cfgCli (Or.inl rfl) rfl rfl rfl rfl rfl rfl rfl rfl
